import Mathlib

/-!
Shallow embedding of the telemetry derivation pipeline of the F1 telemetry
dashboard (source file f1_webapp.py).  Machine reals are modelled as
rationals; a missing (NaN) acceleration entry is modelled as `none`.
The pipeline mirrors source lines 106-152 (acceleration derivation,
percentile outlier clipping, g-force metrics), lines 264-307 (DRS usage
analysis) and lines 343-459 (two-lap comparison).
-/

namespace F1

/-- Model of one telemetry row: columns Time_seconds, Speed (km/h), RPM,
Throttle, Brake, DRS and the derived Acceleration column; the Acceleration
entry is an `Option` because pandas NaN entries are dropped by dropna. -/
structure Sample where
  time : ℚ
  speed : ℚ
  rpm : ℚ
  throttle : ℚ
  brake : ℚ
  drs : ℚ
  accel : Option ℚ
deriving DecidableEq, Inhabited

/-- Write the Acceleration cell of one row, leaving all other columns as
they are (the only column the pipeline ever mutates). -/
def setAccel (s : Sample) (a : Option ℚ) : Sample :=
  { s with accel := a }

/-- Source line 116: Speed_ms = Speed / 3.6 (km/h to m/s). -/
def speed_ms (s : Sample) : ℚ :=
  s.speed / (18/5)

/-- Source lines 119-122: one cell of Speed_ms.diff() / Time_seconds.diff().
A zero time delta gives NaN or an infinity in pandas, and line 122 replaces
the infinities by NaN; both cases are `none` here. -/
def accelOf (prev s : Sample) : Option ℚ :=
  let dt := s.time - prev.time
  if dt = 0 then none else some ((speed_ms s - speed_ms prev) / dt)

/-- Tail of the Acceleration column: each row gets the difference quotient
against the preceding row. -/
def annAux (prev : Sample) : List Sample → List Sample
  | [] => []
  | s :: rest => setAccel s (accelOf prev s) :: annAux s rest

/-- Source line 119: the whole Acceleration column; the first row has no
predecessor, so diff() leaves NaN there. -/
def annotateAccel : List Sample → List Sample
  | [] => []
  | s :: rest => setAccel s none :: annAux s rest

/-- Acceleration column of a telemetry frame. -/
def accelCol (l : List Sample) : List (Option ℚ) :=
  l.map (fun s => s.accel)

/-- Source lines 126 and 143: telemetry.Acceleration.dropna(). -/
def validAccel (l : List Sample) : List ℚ :=
  (accelCol l).filterMap id

/-- Insert one value into a sorted list of rationals. -/
def insertQ (x : ℚ) : List ℚ → List ℚ
  | [] => [x]
  | y :: ys => if x ≤ y then x :: y :: ys else y :: insertQ x ys

/-- Insertion sort of a list of rationals, ascending. -/
def sortQ : List ℚ → List ℚ
  | [] => []
  | x :: xs => insertQ x (sortQ xs)

/-- Source lines 130-131: pandas Series.quantile with the default linear
interpolation: at fractional position q * (n - 1) of the sorted data,
interpolate between the neighbouring order statistics. -/
def quantile (l : List ℚ) (q : ℚ) : ℚ :=
  let s := sortQ l
  if s.length = 0 then 0
  else
    let pos := q * ((s.length : ℚ) - 1)
    let j := Int.toNat ⌊pos⌋
    let a := s.getD j 0
    let b := s.getD (j + 1) a
    a + (pos - (⌊pos⌋ : ℚ)) * (b - a)

/-- Source lines 137-140: Series.clip(lower, upper), elementwise
min(max(x, lower), upper). -/
def clipVal (lo hi x : ℚ) : ℚ :=
  min (max x lo) hi

/-- Source lines 126-140: when strictly more than 10 valid acceleration
values exist, clip the Acceleration column into the intersection of the
1st/99th percentile band with the physical band of -70 to 30 in m/s2;
otherwise leave the frame untouched. -/
def clipOutliers (l : List Sample) : List Sample :=
  let valid_accel := validAccel l
  if 10 < valid_accel.length then
    let p99_accel := quantile valid_accel (99/100)
    let p01_accel := quantile valid_accel (1/100)
    let max_realistic_accel := min p99_accel 30
    let min_realistic_accel := max p01_accel (-70)
    l.map (fun s => setAccel s (s.accel.map (clipVal min_realistic_accel max_realistic_accel)))
  else l

/-- Source lines 113-140 composed: derive the Acceleration column, then
apply the outlier clipping step. -/
def processedTelemetry (l : List Sample) : List Sample :=
  clipOutliers (annotateAccel l)

/-- Maximum of a list of rationals, 0 on the empty list (callers guard the
empty case exactly as the source does). -/
def listMax : List ℚ → ℚ
  | [] => 0
  | x :: xs => xs.foldl max x

/-- Minimum of a list of rationals, 0 on the empty list. -/
def listMin : List ℚ → ℚ
  | [] => 0
  | x :: xs => xs.foldl min x

/-- Mean of a list of rationals (sum over length). -/
def listMean (l : List ℚ) : ℚ :=
  l.sum / (l.length : ℚ)

/-- Source line 108: telemetry.Speed.max(). -/
def max_speed (l : List Sample) : ℚ :=
  listMax (l.map (fun s => s.speed))

/-- Source line 109: telemetry.Speed.min(). -/
def min_speed (l : List Sample) : ℚ :=
  listMin (l.map (fun s => s.speed))

/-- Source line 110: telemetry.Speed.mean(). -/
def avg_speed (l : List Sample) : ℚ :=
  listMean (l.map (fun s => s.speed))

/-- Source line 111: telemetry.RPM.max(). -/
def max_rpm (l : List Sample) : ℚ :=
  listMax (l.map (fun s => s.rpm))

/-- Source line 151: telemetry.Brake.max(). -/
def max_brake_pressure (l : List Sample) : ℚ :=
  listMax (l.map (fun s => s.brake))

/-- Source line 152: telemetry.Throttle.max(). -/
def max_throttle (l : List Sample) : ℚ :=
  listMax (l.map (fun s => s.throttle))

/-- Source lines 143-144: valid_accel.max() / 9.81 when valid_accel is
nonempty after clipping, else 0. -/
def max_accel_g_raw (l : List Sample) : ℚ :=
  match validAccel (processedTelemetry l) with
  | [] => 0
  | x :: xs => (xs.foldl max x) / (981/100)

/-- Source lines 143 and 145: abs(valid_accel.min()) / 9.81 when
valid_accel is nonempty after clipping, else 0. -/
def max_decel_g_raw (l : List Sample) : ℚ :=
  match validAccel (processedTelemetry l) with
  | [] => 0
  | x :: xs => |xs.foldl min x| / (981/100)

/-- Source line 148: displayed acceleration g, capped at 3.0. -/
def max_accel_g (l : List Sample) : ℚ :=
  min (max_accel_g_raw l) 3

/-- Source line 149: displayed deceleration g, capped at 7.0. -/
def max_decel_g (l : List Sample) : ℚ :=
  min (max_decel_g_raw l) 7

/-- Source line 267: a sample is DRS active when its DRS status exceeds 0. -/
def drs_active (s : Sample) : Bool :=
  decide (0 < s.drs)

/-- Source line 268: number of DRS-active samples of the lap. -/
def drs_distance (l : List Sample) : ℕ :=
  (l.filter drs_active).length

/-- Source line 270: percentage of the lap samples that are DRS active. -/
def drs_percentage (l : List Sample) : ℚ :=
  ((drs_distance l : ℚ) / (l.length : ℚ)) * 100

/-- Numeric content of the DRS branch of the report: active percentage,
mean speed in each partition, and the derived speed gain. -/
structure DRSReport where
  percentage : ℚ
  avg_speed_with_drs : ℚ
  avg_speed_without_drs : ℚ
  speed_gain : ℚ
deriving DecidableEq

/-- Source lines 266-304: the speed-gain figures are computed and shown
only when some sample is active and the active percentage is below 95;
otherwise the branch falls to an informational message, modelled as
`none`. -/
def drsUsage (l : List Sample) : Option DRSReport :=
  if 0 < drs_distance l ∧ drs_percentage l < 95 then
    some { percentage := drs_percentage l
           avg_speed_with_drs := avg_speed (l.filter drs_active)
           avg_speed_without_drs := avg_speed (l.filter (fun s => !(drs_active s)))
           speed_gain := avg_speed (l.filter drs_active) -
             avg_speed (l.filter (fun s => !(drs_active s))) }
  else none

/-- One lap of a session: driver tag, lap time in seconds, telemetry rows. -/
structure Lap where
  driver : String
  lapTime : ℚ
  telemetry : List Sample
deriving Inhabited

/-- Insert one lap into a list sorted by lap time. -/
def insertLap (x : Lap) : List Lap → List Lap
  | [] => [x]
  | y :: ys => if x.lapTime ≤ y.lapTime then x :: y :: ys else y :: insertLap x ys

/-- Source line 345: session.laps.sort_values(LapTime), ascending. -/
def sortLaps : List Lap → List Lap
  | [] => []
  | x :: xs => insertLap x (sortLaps xs)

/-- Output of the two-lap comparison: drivers, lap-time difference and the
top-speed and mean-speed deltas of source lines 356 and 445-446. -/
structure Comparison where
  driver1 : String
  driver2 : String
  time_diff : ℚ
  speed_delta : ℚ
  avg_speed_delta : ℚ
deriving Inhabited

/-- Source lines 343-459: take the two fastest laps; when fewer than two
exist the feature yields no output (the source shows an informational
message instead), modelled as `none`. -/
def compareTwoFastest (laps : List Lap) : Option Comparison :=
  let sorted_laps := (sortLaps laps).take 2
  if 2 ≤ sorted_laps.length then
    let lap1 := sorted_laps.getD 0 default
    let lap2 := sorted_laps.getD 1 default
    some { driver1 := lap1.driver
           driver2 := lap2.driver
           time_diff := lap2.lapTime - lap1.lapTime
           speed_delta := max_speed lap1.telemetry - max_speed lap2.telemetry
           avg_speed_delta := avg_speed lap1.telemetry - avg_speed lap2.telemetry }
  else none

/-! Helper lemmas about the pipeline steps. -/

lemma accelCol_clip (g : ℚ → ℚ) (l : List Sample) :
    accelCol (l.map (fun s => setAccel s (Option.map g s.accel))) =
      (accelCol l).map (Option.map g) := by
  induction l with
  | nil => rfl
  | cons s rest ih => simp only [List.map_cons, accelCol, setAccel] at ih ⊢; rw [ih]

lemma filterMap_id_map (g : ℚ → ℚ) (xs : List (Option ℚ)) :
    (xs.map (Option.map g)).filterMap id = (xs.filterMap id).map g := by
  induction xs with
  | nil => rfl
  | cons x xs ih => cases x <;> simp [ih]

lemma isSome_map_optionMap (g : ℚ → ℚ) (xs : List (Option ℚ)) :
    (xs.map (Option.map g)).map Option.isSome = xs.map Option.isSome := by
  induction xs with
  | nil => rfl
  | cons x xs ih => cases x <;> simp [ih]

lemma clipOutliers_of_le (l : List Sample) (h : (validAccel l).length ≤ 10) :
    clipOutliers l = l := by
  simp only [clipOutliers]
  rw [if_neg (by omega)]

lemma clipOutliers_of_lt (l : List Sample) (h : 10 < (validAccel l).length) :
    clipOutliers l = l.map (fun s => setAccel s (Option.map
      (clipVal (max (quantile (validAccel l) (1/100)) (-70))
        (min (quantile (validAccel l) (99/100)) 30)) s.accel)) := by
  simp only [clipOutliers]
  rw [if_pos h]

lemma validAccel_clip (g : ℚ → ℚ) (l : List Sample) :
    validAccel (l.map (fun s => setAccel s (Option.map g s.accel))) =
      (validAccel l).map g := by
  unfold validAccel
  rw [accelCol_clip, filterMap_id_map]

/-- Claim C2: for every input sample sequence, regardless of the magnitude of the
raw telemetry values, the reported peak acceleration in g is at most 3.0
and the reported peak deceleration in g is at most 7.0. -/
theorem reported_g_bounded (l : List Sample) :
    max_accel_g l ≤ 3 ∧ max_decel_g l ≤ 7 :=
  ⟨min_le_right _ _, min_le_right _ _⟩

/-- Claim C10: the acceleration clipping step never changes which acceleration
values are defined, and the count of valid acceleration samples is the
same before and after clipping. -/
theorem clipping_preserves_definedness (l : List Sample) :
    (accelCol (clipOutliers l)).map Option.isSome = (accelCol l).map Option.isSome ∧
    (validAccel (clipOutliers l)).length = (validAccel l).length := by
  by_cases h : 10 < (validAccel l).length
  · rw [clipOutliers_of_lt l h]
    constructor
    · rw [accelCol_clip]
      exact isSome_map_optionMap _ _
    · rw [validAccel_clip, List.length_map]
  · rw [clipOutliers_of_le l (by omega)]
    exact ⟨rfl, rfl⟩

lemma map_annAux {α : Type} (g : Sample → α) (hg : ∀ s a, g (setAccel s a) = g s)
    (prev : Sample) (rest : List Sample) :
    (annAux prev rest).map g = rest.map g := by
  induction rest generalizing prev with
  | nil => rfl
  | cons s rest ih => simp only [annAux, List.map_cons, hg, ih]

lemma map_annotateAccel {α : Type} (g : Sample → α) (hg : ∀ s a, g (setAccel s a) = g s)
    (l : List Sample) :
    (annotateAccel l).map g = l.map g := by
  cases l with
  | nil => rfl
  | cons s rest => simp only [annotateAccel, List.map_cons, hg, map_annAux g hg]

lemma map_clipOutliers {α : Type} (g : Sample → α) (hg : ∀ s a, g (setAccel s a) = g s)
    (l : List Sample) :
    (clipOutliers l).map g = l.map g := by
  by_cases h : 10 < (validAccel l).length
  · rw [clipOutliers_of_lt l h, List.map_map]
    exact List.map_congr_left fun s _ => hg s _
  · rw [clipOutliers_of_le l (by omega)]

lemma map_processedTelemetry {α : Type} (g : Sample → α)
    (hg : ∀ s a, g (setAccel s a) = g s) (l : List Sample) :
    (processedTelemetry l).map g = l.map g := by
  unfold processedTelemetry
  rw [map_clipOutliers g hg, map_annotateAccel g hg]

/-- Claim C7: the derivation and clipping steps leave the speed, RPM, throttle
and brake columns unchanged, so the speed extrema and mean, the RPM
maximum, the throttle maximum and the brake maximum are identical whether
computed on the original samples or on the processed frame. -/
theorem stats_unaffected_by_clipping (l : List Sample) :
    (processedTelemetry l).map (fun s => s.speed) = l.map (fun s => s.speed) ∧
    (processedTelemetry l).map (fun s => s.rpm) = l.map (fun s => s.rpm) ∧
    (processedTelemetry l).map (fun s => s.throttle) = l.map (fun s => s.throttle) ∧
    (processedTelemetry l).map (fun s => s.brake) = l.map (fun s => s.brake) ∧
    max_speed (processedTelemetry l) = max_speed l ∧
    min_speed (processedTelemetry l) = min_speed l ∧
    avg_speed (processedTelemetry l) = avg_speed l ∧
    max_rpm (processedTelemetry l) = max_rpm l ∧
    max_throttle (processedTelemetry l) = max_throttle l ∧
    max_brake_pressure (processedTelemetry l) = max_brake_pressure l := by
  have hspeed := map_processedTelemetry (fun s => s.speed) (fun s a => rfl) l
  have hrpm := map_processedTelemetry (fun s => s.rpm) (fun s a => rfl) l
  have hthr := map_processedTelemetry (fun s => s.throttle) (fun s a => rfl) l
  have hbrk := map_processedTelemetry (fun s => s.brake) (fun s a => rfl) l
  refine ⟨hspeed, hrpm, hthr, hbrk, ?_, ?_, ?_, ?_, ?_, ?_⟩ <;>
    simp only [max_speed, min_speed, avg_speed, max_rpm, max_throttle,
      max_brake_pressure, hspeed, hrpm, hthr, hbrk]

lemma length_insertLap (x : Lap) (l : List Lap) :
    (insertLap x l).length = l.length + 1 := by
  induction l with
  | nil => rfl
  | cons y ys ih =>
    unfold insertLap
    split
    · rfl
    · simp only [List.length_cons, ih]

lemma length_sortLaps (l : List Lap) : (sortLaps l).length = l.length := by
  induction l with
  | nil => rfl
  | cons x xs ih => simp only [sortLaps, length_insertLap, ih, List.length_cons]

/-- Claim C6: for every session containing fewer than two laps, the two-lap
comparison feature produces no comparison output; the function is total,
so no error is raised and the request completes. -/
theorem fewer_than_two_laps_no_comparison (laps : List Lap)
    (h : laps.length < 2) :
    compareTwoFastest laps = none := by
  simp only [compareTwoFastest]
  have hlen : ((sortLaps laps).take 2).length = min 2 laps.length := by
    rw [List.length_take, length_sortLaps]
  rw [if_neg (by omega)]

/-- Witness for C6 at the empty session. -/
theorem fewer_than_two_laps_no_comparison_witness :
    compareTwoFastest [] = none :=
  fewer_than_two_laps_no_comparison [] (by decide)

/-- Claim C5: whenever the fraction of DRS-active samples exceeds 0.95 of the
lap, the DRS branch computes no speed-gain figure or partition means; the
informational-message branch (modelled as none) is taken instead. -/
theorem drs_saturated_suppressed (l : List Sample)
    (h : (95 : ℚ)/100 < (drs_distance l : ℚ) / (l.length : ℚ)) :
    drsUsage l = none := by
  unfold drsUsage
  rw [if_neg]
  rintro ⟨-, h2⟩
  unfold drs_percentage at h2
  linarith

/-- Concrete lap on which every sample is DRS active. -/
def exDrsAll : List Sample :=
  [⟨0, 100, 0, 0, 0, 1, none⟩, ⟨1, 110, 0, 0, 0, 1, none⟩]

/-- Witness for C5: with both samples DRS active the fraction is 1. -/
theorem drs_saturated_suppressed_witness : drsUsage exDrsAll = none := by
  refine drs_saturated_suppressed exDrsAll ?_
  have hd : drs_distance exDrsAll = 2 := by
    norm_num [drs_distance, exDrsAll, List.filter, drs_active]
  rw [hd]
  norm_num [exDrsAll]

/-- Claim C9: when the DRS column is present but no sample is DRS active, the
speed-gain figure and the per-partition mean speeds are not computed; the
informational-message branch (modelled as none) is taken instead. -/
theorem drs_zero_active_suppressed (l : List Sample)
    (h : drs_distance l = 0) :
    drsUsage l = none := by
  unfold drsUsage
  rw [if_neg]
  rintro ⟨h1, -⟩
  omega

/-- Concrete lap on which the DRS column is present but never active. -/
def exDrsNone : List Sample :=
  [⟨0, 100, 0, 0, 0, 0, none⟩, ⟨1, 110, 0, 0, 0, 0, none⟩]

/-- Witness for C9 at a lap with zero DRS-active samples. -/
theorem drs_zero_active_suppressed_witness : drsUsage exDrsNone = none := by
  refine drs_zero_active_suppressed exDrsNone ?_
  norm_num [drs_distance, exDrsNone, List.filter, drs_active]

/-- Claim C4: a nonempty sample sequence with no defined acceleration value at
all still yields zero for both displayed acceleration metrics. -/
theorem no_valid_accel_zero_metrics (l : List Sample) (hne : l ≠ [])
    (h : validAccel (annotateAccel l) = []) :
    max_accel_g l = 0 ∧ max_decel_g l = 0 := by
  have hproc : processedTelemetry l = annotateAccel l := by
    unfold processedTelemetry
    exact clipOutliers_of_le _ (by rw [h]; norm_num)
  have hv : validAccel (processedTelemetry l) = [] := by rw [hproc, h]
  constructor
  · unfold max_accel_g max_accel_g_raw
    rw [hv]
    show min 0 3 = 0
    exact min_eq_left (by norm_num)
  · unfold max_decel_g max_decel_g_raw
    rw [hv]
    show min 0 7 = 0
    exact min_eq_left (by norm_num)

/-- Concrete one-sample lap: no consecutive pair exists, so no
acceleration value is defined. -/
def exSingle : List Sample :=
  [⟨0, 100, 0, 0, 0, 0, none⟩]

/-- Witness for C4 at a one-sample lap. -/
theorem no_valid_accel_zero_metrics_witness :
    max_accel_g exSingle = 0 ∧ max_decel_g exSingle = 0 :=
  no_valid_accel_zero_metrics exSingle (by simp [exSingle]) rfl

lemma accelCol_annAux_getElem (prev : Sample) (rest : List Sample) (i : ℕ)
    (h : i < rest.length) :
    (accelCol (annAux prev rest))[i]? =
      some (accelOf ((prev :: rest).getD i default) (rest.getD i default)) := by
  induction rest generalizing prev i with
  | nil => simp at h
  | cons s rest ih =>
    cases i with
    | zero => simp [annAux, accelCol, setAccel]
    | succ j =>
      have hj : j < rest.length := by simpa using h
      simp only [annAux, accelCol, List.map_cons, List.getElem?_cons_succ,
        List.getD_cons_succ]
      exact ih s j hj

lemma accelCol_annotate_getElem (l : List Sample) (i : ℕ) (h : i + 1 < l.length) :
    (accelCol (annotateAccel l))[i + 1]? =
      some (accelOf (l.getD i default) (l.getD (i + 1) default)) := by
  cases l with
  | nil => simp at h
  | cons s rest =>
    have hi : i < rest.length := by simpa using h
    simp only [annotateAccel, accelCol, List.map_cons, List.getElem?_cons_succ,
      List.getD_cons_succ]
    exact accelCol_annAux_getElem s rest i hi

/-- Claim C3: a pair of consecutive samples with identical timestamps yields an
undefined acceleration at that index, both directly after differencing and
after the whole pipeline, so it is excluded from every downstream
statistic; the total functions model that no infinity and no
divide-by-zero failure can reach the outputs. -/
theorem zero_dt_accel_undefined (l : List Sample) (i : ℕ) (h : i + 1 < l.length)
    (heq : (l.getD (i + 1) default).time = (l.getD i default).time) :
    (accelCol (annotateAccel l))[i + 1]? = some none ∧
    (accelCol (processedTelemetry l))[i + 1]? = some none := by
  have h1 : (accelCol (annotateAccel l))[i + 1]? = some none := by
    rw [accelCol_annotate_getElem l i h]
    unfold accelOf
    rw [heq]
    simp
  refine ⟨h1, ?_⟩
  unfold processedTelemetry
  by_cases hc : 10 < (validAccel (annotateAccel l)).length
  · rw [clipOutliers_of_lt _ hc, accelCol_clip, List.getElem?_map, h1]
    rfl
  · rw [clipOutliers_of_le _ (by omega)]
    exact h1

/-- Concrete lap whose first two samples share a timestamp. -/
def exDupTime : List Sample :=
  [⟨0, 100, 0, 0, 0, 0, none⟩, ⟨0, 120, 0, 0, 0, 0, none⟩, ⟨1, 150, 0, 0, 0, 0, none⟩]

/-- Witness for C3 at the duplicated-timestamp lap. -/
theorem zero_dt_accel_undefined_witness :
    (accelCol (annotateAccel exDupTime))[0 + 1]? = some none ∧
    (accelCol (processedTelemetry exDupTime))[0 + 1]? = some none :=
  zero_dt_accel_undefined exDupTime 0 (by norm_num [exDupTime])
    (by norm_num [exDupTime, List.getD])

/-- Claim C1 (amended): clipping is applied only when strictly more than 10
defined acceleration values exist; in that case, and provided the clipping
band is nonempty (its lower end at most its upper end), every defined
value of the clipped series lies within the band from the larger of the
1st percentile and -70 up to the smaller of the 99th percentile and 30;
with at most 10 defined values the series is left equal to the unclipped
series. -/
theorem clip_bounds_amended (l : List Sample) :
    (10 < (validAccel (annotateAccel l)).length ∧
        max (quantile (validAccel (annotateAccel l)) (1/100)) (-70) ≤
          min (quantile (validAccel (annotateAccel l)) (99/100)) 30 →
      ∀ v ∈ validAccel (processedTelemetry l),
        max (quantile (validAccel (annotateAccel l)) (1/100)) (-70) ≤ v ∧
          v ≤ min (quantile (validAccel (annotateAccel l)) (99/100)) 30) ∧
    ((validAccel (annotateAccel l)).length ≤ 10 →
      processedTelemetry l = annotateAccel l) := by
  constructor
  · rintro ⟨hn, hlohi⟩ v hv
    unfold processedTelemetry at hv
    rw [clipOutliers_of_lt _ hn, validAccel_clip] at hv
    obtain ⟨x, -, rfl⟩ := List.mem_map.mp hv
    unfold clipVal
    exact ⟨le_min (le_max_right x _) hlohi, min_le_right _ _⟩
  · intro hn
    unfold processedTelemetry
    exact clipOutliers_of_le _ hn

/-- Concrete lap with 12 samples at one-second intervals whose speed
steps give the 11 defined acceleration values 1, 2, ..., 11 in m/s2. -/
def exClip : List Sample :=
  [⟨0, 0, 0, 0, 0, 0, none⟩, ⟨1, 18/5, 0, 0, 0, 0, none⟩,
   ⟨2, 54/5, 0, 0, 0, 0, none⟩, ⟨3, 108/5, 0, 0, 0, 0, none⟩,
   ⟨4, 36, 0, 0, 0, 0, none⟩, ⟨5, 54, 0, 0, 0, 0, none⟩,
   ⟨6, 378/5, 0, 0, 0, 0, none⟩, ⟨7, 504/5, 0, 0, 0, 0, none⟩,
   ⟨8, 648/5, 0, 0, 0, 0, none⟩, ⟨9, 162, 0, 0, 0, 0, none⟩,
   ⟨10, 198, 0, 0, 0, 0, none⟩, ⟨11, 1188/5, 0, 0, 0, 0, none⟩]

/-- Witness for C1: at the 12-sample lap the clipping hypotheses hold and
the clipped value 11/10 obeys both bounds; at the one-sample lap the
series is unchanged. -/
theorem clip_bounds_amended_witness :
    (max (quantile (validAccel (annotateAccel exClip)) (1/100)) (-70) ≤ 11/10 ∧
      (11/10 : ℚ) ≤ min (quantile (validAccel (annotateAccel exClip)) (99/100)) 30) ∧
    processedTelemetry exSingle = annotateAccel exSingle := by
  have hv : validAccel (annotateAccel exClip) = [1, 2, 3, 4, 5, 6, 7, 8, 9, 10, 11] := by
    norm_num [exClip, annotateAccel, annAux, accelOf, speed_ms, setAccel,
      validAccel, accelCol, List.filterMap]
  have hq01 : quantile [1, 2, 3, 4, 5, 6, 7, 8, 9, 10, 11] (1/100) = 11/10 := by
    have h1 : ⌊(1 : ℚ)/100 * (11 - 1)⌋ = 0 := by
      rw [Int.floor_eq_iff] <;> norm_num
    norm_num [quantile, sortQ, insertQ, h1]
  have hq99 : quantile [1, 2, 3, 4, 5, 6, 7, 8, 9, 10, 11] (99/100) = 109/10 := by
    have h1 : ⌊(99 : ℚ)/100 * (11 - 1)⌋ = 9 := by
      rw [Int.floor_eq_iff] <;> norm_num
    have h2 : (9 : ℤ).toNat = 9 := rfl
    norm_num [quantile, sortQ, insertQ, h1, h2]
  have hn : 10 < (validAccel (annotateAccel exClip)).length := by
    rw [hv]; norm_num
  have hlohi : max (quantile (validAccel (annotateAccel exClip)) (1/100)) (-70) ≤
      min (quantile (validAccel (annotateAccel exClip)) (99/100)) 30 := by
    rw [hv, hq01, hq99, max_eq_left (by norm_num), min_eq_left (by norm_num)]
    norm_num
  have hmem : (11/10 : ℚ) ∈ validAccel (processedTelemetry exClip) := by
    unfold processedTelemetry
    rw [clipOutliers_of_lt _ hn, validAccel_clip, hv, hq01, hq99]
    refine List.mem_map.mpr ⟨1, by norm_num, ?_⟩
    norm_num [clipVal, max_def, min_def]
  refine ⟨(clip_bounds_amended exClip).1 ⟨hn, hlohi⟩ (11/10) hmem, ?_⟩
  exact (clip_bounds_amended exSingle).2 (by decide)

/-- Concrete lap with exactly 10 defined acceleration values, one of them
equal to 180 m/s2: the code does not clip at exactly 10 values. -/
def exTen : List Sample :=
  [⟨0, 0, 0, 0, 0, 0, none⟩, ⟨1, 648, 0, 0, 0, 0, none⟩,
   ⟨2, 648, 0, 0, 0, 0, none⟩, ⟨3, 648, 0, 0, 0, 0, none⟩,
   ⟨4, 648, 0, 0, 0, 0, none⟩, ⟨5, 648, 0, 0, 0, 0, none⟩,
   ⟨6, 648, 0, 0, 0, 0, none⟩, ⟨7, 648, 0, 0, 0, 0, none⟩,
   ⟨8, 648, 0, 0, 0, 0, none⟩, ⟨9, 648, 0, 0, 0, 0, none⟩,
   ⟨10, 648, 0, 0, 0, 0, none⟩]

/-- Counterexample to C1 as stated: this lap has exactly 10 defined
acceleration values, so by the claim the clipped series should lie below
the smaller of the 99th percentile and 30; yet the defined value 180
survives the pipeline, because the code clips only with strictly more
than 10 values. -/
theorem clip_threshold_counterexample :
    10 ≤ (validAccel (annotateAccel exTen)).length ∧
    ∃ v ∈ validAccel (processedTelemetry exTen),
      ¬(v ≤ min (quantile (validAccel (annotateAccel exTen)) (99/100)) 30) := by
  have hv : validAccel (annotateAccel exTen) = [180, 0, 0, 0, 0, 0, 0, 0, 0, 0] := by
    norm_num [exTen, annotateAccel, annAux, accelOf, speed_ms, setAccel,
      validAccel, accelCol, List.filterMap]
  have hp : processedTelemetry exTen = annotateAccel exTen := by
    unfold processedTelemetry
    exact clipOutliers_of_le _ (by rw [hv]; norm_num)
  refine ⟨by rw [hv]; norm_num, 180, ?_, ?_⟩
  · rw [hp, hv]
    norm_num
  · intro hle
    have h30 : (180 : ℚ) ≤ 30 := le_trans hle (min_le_right _ _)
    norm_num at h30

/-- Concrete lap of the spec example: speeds 100, 100, 150 km/h at times
0, 1, 2 seconds. -/
def exExample : List Sample :=
  [⟨0, 100, 0, 0, 0, 0, none⟩, ⟨1, 100, 0, 0, 0, 0, none⟩,
   ⟨2, 150, 0, 0, 0, 0, none⟩]

/-- Claim C8: on the example lap the second-interval acceleration is exactly
125/9 m/s2 (about 13.9), it survives the pipeline unclipped, lies below
the 30 m/s2 ceiling, and the reported peak acceleration is exactly
12500/8829 g, which is between 1.41 and 1.42 and below the 3.0 cap. -/
theorem example_lap_accel :
    accelCol (processedTelemetry exExample) = [none, some 0, some (125/9)] ∧
    (125/9 : ℚ) < 30 ∧
    max_accel_g exExample = 12500/8829 ∧
    (141/100 : ℚ) < max_accel_g exExample ∧
    max_accel_g exExample < 142/100 ∧
    max_accel_g exExample < 3 := by
  have hcol : accelCol (annotateAccel exExample) = [none, some 0, some (125/9)] := by
    norm_num [exExample, annotateAccel, annAux, accelOf, speed_ms, setAccel, accelCol]
  have hv : validAccel (annotateAccel exExample) = [0, 125/9] := by
    unfold validAccel
    rw [hcol]
    rfl
  have hp : processedTelemetry exExample = annotateAccel exExample := by
    unfold processedTelemetry
    exact clipOutliers_of_le _ (by rw [hv]; norm_num)
  have hg : max_accel_g exExample = 12500/8829 := by
    unfold max_accel_g max_accel_g_raw
    rw [hp, hv]
    norm_num [List.foldl, max_def, min_def]
  refine ⟨by rw [hp, hcol], by norm_num, hg, ?_, ?_, ?_⟩ <;> rw [hg] <;> norm_num

end F1
